import Mathlib

/-!
# Verification of the air-quality query-resolution state machine

Shallow embedding of `src/graphs/pm_query_workflow.py` (class `PMQueryWorkflow`)
and of the selection endpoint `post_query_selection` in `src/api/main.py`.

Modelling conventions:
* Python strings are modelled as `List Char` (wrapped into `String` where
  convenient); `str.lower` is modelled per-character for ASCII letters, which is
  what every query/term in the claims exercises.
* Python float metric values are modelled by `PyFloat`: either `nan` or an
  exact rational.  All thresholds (30, 60, ...) and all concrete values in the
  claims (45.0, 30.0, ...) are exactly representable, so rational comparison
  agrees with IEEE comparison on them; `nan <= c` is `false`, as in IEEE.
  `f"{v:.1f}"` is modelled by round-half-even fixed-point printing of the
  rational (the IEEE negative-zero artefact `-0.0` is not modelled; no claim
  depends on it).
* A raised Python exception (IndexError from list indexing, TypeError from
  formatting `None`) is modelled by an `Option`-valued function returning
  `none`.
* The two collaborators (`location_agent.run`, `pm_agent.run`) are parameters:
  a resolver function `String → ResolveResult` and a fetcher function
  `LocationCandidate → FetchResult`.  A pure function is by construction a
  deterministic collaborator.
-/

namespace AirQuality

/-! ## Python string primitives -/

/-- ASCII `str.lower` on one character. -/
def pyLowerChar (c : Char) : Char :=
  if 'A' ≤ c ∧ c ≤ 'Z' then Char.ofNat (c.toNat + 32) else c

/-- `str.lower` (per character). -/
def pyLower (s : List Char) : List Char := s.map pyLowerChar

/-- Python `str.isspace` characters relevant to `str.strip` / `str.split()`
(ASCII whitespace). -/
def pyIsSpace (c : Char) : Bool :=
  c == ' ' || c == '\t' || c == '\n' || c == '\r' || c == '\x0b' || c == '\x0c'

/-- Python `str.strip()`: remove leading and trailing whitespace. -/
def pyStrip (s : List Char) : List Char :=
  ((s.dropWhile pyIsSpace).reverse.dropWhile pyIsSpace).reverse

/-- Python `needle in haystack` substring test. -/
def containsSub (pat : List Char) : List Char → Bool
  | [] => pat.isEmpty
  | c :: cs => pat.isPrefixOf (c :: cs) || containsSub pat cs

/-- First occurrence of `sep` in `s`, scanning left to right: returns the text
before the occurrence and the text after it. -/
def splitFirst (sep : List Char) : List Char → Option (List Char × List Char)
  | [] => none
  | c :: cs =>
    if sep.isPrefixOf (c :: cs) then some ([], (c :: cs).drop sep.length)
    else
      match splitFirst sep cs with
      | none => none
      | some (pre, rest) => some (c :: pre, rest)

/-- Fuel-indexed left-to-right non-overlapping split; with fuel `s.length`
(and a non-empty separator) this is exactly Python `s.split(sep)`. -/
def pySplitFuel (sep : List Char) : Nat → List Char → List (List Char)
  | 0, s => [s]
  | fuel + 1, s =>
    match splitFirst sep s with
    | none => [s]
    | some (pre, rest) => pre :: pySplitFuel sep fuel rest

/-- Python `s.split(sep)` for a non-empty separator. -/
def pySplit (sep s : List Char) : List (List Char) := pySplitFuel sep s.length s

/-- The tail of the left-to-right non-overlapping separator scan: what is left
after repeatedly consuming the first occurrence of `sep`.  Used to state the
amended reading of the spec's "everything after the last occurrence". -/
def tailScanFuel (sep : List Char) : Nat → List Char → List Char
  | 0, s => s
  | fuel + 1, s =>
    match splitFirst sep s with
    | none => s
    | some (_, rest) => tailScanFuel sep fuel rest

/-- The last piece of the non-overlapping split, computed by scanning. -/
def lastPiece (sep s : List Char) : List Char := tailScanFuel sep s.length s

/-- Everything after the last (rightmost) occurrence of `sep` in `s`, in the
literal sense of "last occurrence"; `none` when `sep` does not occur.
This is the claim's own wording, used to compare against the code. -/
def afterLastOcc (sep : List Char) : List Char → Option (List Char)
  | [] => if sep.isEmpty then some [] else none
  | c :: cs =>
    match afterLastOcc sep cs with
    | some r => some r
    | none =>
      if sep.isPrefixOf (c :: cs) then some ((c :: cs).drop sep.length) else none

/-- Python `s.split()` (split on whitespace runs, discarding empty pieces);
`acc` is the reversed current token. -/
def wsSplitAux : List Char → List Char → List (List Char)
  | acc, [] => if acc.isEmpty then [] else [acc.reverse]
  | acc, c :: cs =>
    if pyIsSpace c then
      if acc.isEmpty then wsSplitAux [] cs else acc.reverse :: wsSplitAux [] cs
    else wsSplitAux (c :: acc) cs

/-- Python `s.split()`. -/
def pySplitWs (s : List Char) : List (List Char) := wsSplitAux [] s

/-- `str.replace('_', ' ')` (single-character replacement). -/
def replaceUnderscore (s : List Char) : List Char :=
  s.map fun c => if c == '_' then ' ' else c

/-- ASCII upper-casing of one character (for `str.title`). -/
def pyUpperChar (c : Char) : Char :=
  if 'a' ≤ c ∧ c ≤ 'z' then Char.ofNat (c.toNat - 32) else c

def isAsciiLetter (c : Char) : Bool :=
  ('a' ≤ c && c ≤ 'z') || ('A' ≤ c && c ≤ 'Z')

/-- Python `str.title`: a letter after a non-letter is upper-cased, other
letters are lower-cased (`prevLetter` says whether the previous character was
a letter). -/
def pyTitleAux : Bool → List Char → List Char
  | _, [] => []
  | prevLetter, c :: cs =>
    if isAsciiLetter c then
      (if prevLetter then pyLowerChar c else pyUpperChar c) :: pyTitleAux true cs
    else c :: pyTitleAux false cs

def pyTitle (s : List Char) : List Char := pyTitleAux false s

/-! ## Metric values and `f"{v:.1f}"` formatting -/

/-- A Python float metric value: NaN or an exact rational. -/
inductive PyFloat where
  | nan : PyFloat
  | num : ℚ → PyFloat
  deriving DecidableEq

/-- IEEE-style `v <= bound` (false for NaN). -/
def PyFloat.le (v : PyFloat) (bound : ℚ) : Bool :=
  match v with
  | .nan => false
  | .num q => decide (q ≤ bound)

/-- Round half to even of `10 * q`, computed on `q`'s numerator and
denominator with integer arithmetic only: `10 * q = t / d` with
`t = 10 * q.num`, `d = q.den > 0`; `fl = ⌊t / d⌋` and `r = t - d * fl` is the
remainder in `[0, d)`, so the fractional part of `10 * q` is `r / d`, compared
against `1 / 2` by cross-multiplication. -/
def rne10 (q : ℚ) : ℤ :=
  let t : ℤ := 10 * q.num
  let d : ℤ := (q.den : ℤ)
  let fl : ℤ := Int.fdiv t d
  let r : ℤ := t - d * fl
  if 2 * r < d then fl
  else if d < 2 * r then fl + 1
  else if fl % 2 = 0 then fl else fl + 1

/-- `f"{v:.1f}"` on an exact rational (round half even, one decimal digit). -/
def formatFixed1 : PyFloat → String
  | .nan => "nan"
  | .num q =>
    let n := rne10 q
    let sign := if n < 0 then "-" else ""
    let m := n.natAbs
    sign ++ toString (m / 10) ++ "." ++ toString (m % 10)

/-! ## Data model (`PMQueryState` and the collaborator result shapes) -/

/-- One location record as produced by `LocationResolverAgent.run`; the
workflow reads `code`, `level` and `name`, and the resolver additionally
attaches a derived `display_name`. -/
structure LocationCandidate where
  code : String
  level : String
  name : String
  display_name : String
  deriving DecidableEq

/-- The fields of the `pm_agent.run` result dictionary that the workflow
consumes (`success`, `error`, `pm25_value`, `timestamp`, `station_count`);
`none` models an absent key / `None` value. -/
structure FetchResult where
  success : Bool
  error : Option String
  pm25_value : Option PyFloat
  timestamp : Option String
  station_count : Option Nat
  deriving DecidableEq

/-- The fields of the `location_agent.run` result that `search_location`
consumes, with the `.get(..., default)` defaults already applied. -/
structure ResolveResult where
  locations : List LocationCandidate
  needs_disambiguation : Bool
  deriving DecidableEq

/-- The `PMQueryState` TypedDict. -/
structure PMQueryState where
  user_query : String
  location_search_term : String
  locations : List LocationCandidate
  needs_disambiguation : Bool
  selected_location : Option LocationCandidate
  pm_data : Option FetchResult
  response : String
  error : Option String
  waiting_for_user : Bool
  deriving DecidableEq

/-- Python truthiness of an optional string (`None` and `""` are falsy). -/
def truthyStr : Option String → Bool
  | none => false
  | some s => s ≠ ""

/-! ## The workflow nodes (`PMQueryWorkflow`) -/

def sepIn : List Char := ' ' :: 'i' :: 'n' :: ' ' :: []
def sepAt : List Char := ' ' :: 'a' :: 't' :: ' ' :: []
def sepFor : List Char := ' ' :: 'f' :: 'o' :: 'r' :: ' ' :: []

/-- The location term derived by `PMQueryWorkflow.parse_query`: lower-case the
query; if `" in "` occurs take `query.split(" in ")[-1].strip()`, else the
same for `" at "`, else for `" for "`; otherwise the last whitespace token
(`words[-1] if words else ""`). -/
def parse_query_term (user_query : List Char) : List Char :=
  let query := pyLower user_query
  if containsSub sepIn query then pyStrip ((pySplit sepIn query).getLastD [])
  else if containsSub sepAt query then pyStrip ((pySplit sepAt query).getLastD [])
  else if containsSub sepFor query then pyStrip ((pySplit sepFor query).getLastD [])
  else (pySplitWs query).getLastD []

/-- The `parse_query` node. -/
def parse_query (s : PMQueryState) : PMQueryState :=
  { s with location_search_term := String.mk (parse_query_term s.user_query.toList) }

/-- The `search_location` node, parameterised by the location agent. -/
def search_location (resolve : String → ResolveResult) (s : PMQueryState) :
    PMQueryState :=
  let result := resolve s.location_search_term
  { s with
    locations := result.locations
    needs_disambiguation := result.needs_disambiguation }

/-- The `handle_disambiguation` node. -/
def handle_disambiguation (s : PMQueryState) : PMQueryState :=
  if s.needs_disambiguation && decide (1 < s.locations.length) then
    { s with waiting_for_user := true }
  else if !s.locations.isEmpty then
    { s with selected_location := s.locations.head?, waiting_for_user := false }
  else
    { s with error := some "No location found", waiting_for_user := false }

/-- The `fetch_pm_data` node, parameterised by the PM agent. -/
def fetch_pm_data (fetch : LocationCandidate → FetchResult) (s : PMQueryState) :
    PMQueryState :=
  match s.selected_location with
  | none => { s with error := some "No location selected" }
  | some location =>
    let result := fetch location
    { s with
      pm_data := if result.success then some result else none
      error := if result.success then none else result.error }

/-- `PMQueryWorkflow._get_air_quality_category`. -/
def get_air_quality_category : Option PyFloat → String × String
  | none => ("Unknown", "❓")
  | some v =>
    if v.le 30 then ("Good", "🟢")
    else if v.le 60 then ("Satisfactory", "🟡")
    else if v.le 90 then ("Moderate", "🟠")
    else if v.le 120 then ("Poor", "🔴")
    else if v.le 250 then ("Very Poor", "🟣")
    else ("Severe", "🟤")

/-- `PMQueryWorkflow._get_health_advisory`. -/
def get_health_advisory (category : String) : String :=
  if category = "Poor" then "Sensitive groups should reduce prolonged outdoor activities."
  else if category = "Very Poor" then "Avoid outdoor activities. Use masks if going outside."
  else if category = "Severe" then "Stay indoors. Avoid all outdoor activities."
  else ""

/-- `location['level'].replace('_', ' ').title()`. -/
def levelDisplay (level : String) : String :=
  String.mk (pyTitle (replaceUnderscore level.toList))

/-- The response text built in the `pm_data` branch of `format_response`;
`none` models the `TypeError` raised by `f"{None:.1f}"` when `pm25_value` is
absent. -/
def pm_response_text (data : FetchResult) (location : LocationCandidate) :
    Option String :=
  match data.pm25_value with
  | none => none
  | some pm_value =>
    let cat := get_air_quality_category (some pm_value)
    let base :=
      cat.2 ++ " **PM2.5 level in " ++ location.name ++ "**\n\n" ++
      "📊 **Current Level:** " ++ formatFixed1 pm_value ++ " µg/m³\n" ++
      "📍 **Location Type:** " ++ levelDisplay location.level ++ "\n" ++
      "🏷️ **Category:** " ++ cat.1 ++ "\n"
    let withTs :=
      base ++ match data.timestamp with
        | some t => if t ≠ "" then "🕐 **Last Updated:** " ++ t ++ "\n" else ""
        | none => ""
    let withSc :=
      withTs ++ match data.station_count with
        | some n => if n ≠ 0 then "📡 **Data from:** " ++ toString n ++ " stations\n" else ""
        | none => ""
    some (withSc ++
      (if cat.1 = "Poor" ∨ cat.1 = "Very Poor" ∨ cat.1 = "Severe" then
        "\n⚠️ **Health Advisory:** " ++ get_health_advisory cat.1
      else ""))

/-- The `format_response` node; `none` models a raised exception
(`location['name']` on `None`, or formatting an absent value). -/
def format_response (s : PMQueryState) : Option PMQueryState :=
  if truthyStr s.error then
    some { s with response := "❌ " ++ s.error.getD "" }
  else
    match s.pm_data with
    | some data =>
      match s.selected_location with
      | none => none
      | some location =>
        (pm_response_text data location).map fun r => { s with response := r }
    | none => some { s with response := "Could not fetch PM2.5 data" }

/-- The initial state built by `process_query`. -/
def initialState (query : String) : PMQueryState :=
  { user_query := query
    waiting_for_user := false
    locations := []
    needs_disambiguation := false
    selected_location := none
    pm_data := none
    response := ""
    error := none
    location_search_term := "" }

/-- `process_query` / the compiled graph: parse → search → disambiguation
check; stop at `END` when `waiting_for_user` is truthy, otherwise continue
with fetch and format.  This is the spec's `start(query)`. -/
def process_query (resolve : String → ResolveResult)
    (fetch : LocationCandidate → FetchResult) (query : String) :
    Option PMQueryState :=
  let s3 := handle_disambiguation (search_location resolve (parse_query (initialState query)))
  if s3.waiting_for_user then some s3
  else format_response (fetch_pm_data fetch s3)

/-! ## `resume` = `continue_with_selection`, and the HTTP selection endpoint -/

/-- Python list indexing `xs[i]` with negative-index support; `none` models
the raised `IndexError`. -/
def pyIndex {α : Type} (xs : List α) (i : ℤ) : Option α :=
  let j : ℤ := if i < 0 then (xs.length : ℤ) + i else i
  if j < 0 then none else xs.get? j.toNat

/-- The in-place mutation `continue_with_selection` performs on the caller's
state dictionary before running the tail:
`state["selected_location"] = state["locations"][selected_idx]` and
`state["waiting_for_user"] = False`.  `none` models the `IndexError`. -/
def resumeMutate (s : PMQueryState) (selected_idx : ℤ) : Option PMQueryState :=
  (pyIndex s.locations selected_idx).map fun loc =>
    { s with selected_location := some loc, waiting_for_user := false }

/-- `PMQueryWorkflow.continue_with_selection` — the spec's
`resume(state, selectedIndex)`.  It performs no validation: it indexes the
locations list, then runs `fetch_pm_data` and `format_response`. -/
def continue_with_selection (fetch : LocationCandidate → FetchResult)
    (s : PMQueryState) (selected_idx : ℤ) : Option PMQueryState :=
  (resumeMutate s selected_idx).bind fun s0 =>
    format_response (fetch_pm_data fetch s0)

/-- Outcome of the validation in `post_query_selection` (`src/api/main.py`). -/
inductive SelectionOutcome where
  | badRequest : String → SelectionOutcome
  | proceed : Nat → SelectionOutcome
  deriving DecidableEq

/-- The validation performed by the HTTP endpoint `post_query_selection`
before it invokes `continue_with_selection`: an empty `locations` list and an
index outside `[0, len(locations))` are rejected with HTTP 400 and the given
detail message. -/
def post_query_selection (locations : List LocationCandidate)
    (selected_index : ℤ) : SelectionOutcome :=
  if locations.isEmpty then
    .badRequest "No selectable locations found in state"
  else if selected_index < 0 ∨ (locations.length : ℤ) ≤ selected_index then
    .badRequest ("'selected_index' out of range [0, " ++
      toString (locations.length - 1) ++ "]")
  else .proceed selected_index.toNat

/-! ## Spec-side formulations used to compare against the code -/

/-- The C4 term-extraction algorithm exactly as the claim words it: lower-case;
priority check of the three separators; when one is present the term is
everything after its last (rightmost) occurrence, trimmed; otherwise the last
whitespace-delimited token. -/
def claim_term_last_occurrence (user_query : List Char) : List Char :=
  let query := pyLower user_query
  if containsSub sepIn query then pyStrip ((afterLastOcc sepIn query).getD query)
  else if containsSub sepAt query then pyStrip ((afterLastOcc sepAt query).getD query)
  else if containsSub sepFor query then pyStrip ((afterLastOcc sepFor query).getD query)
  else (pySplitWs query).getLastD []

/-- The amended C4 algorithm: as the claim, except that "everything after the
last occurrence" is replaced by the final piece of the left-to-right
non-overlapping split by the separator (the two coincide whenever occurrences
of the separator do not overlap). -/
def spec_term_amended (user_query : List Char) : List Char :=
  let query := pyLower user_query
  if containsSub sepIn query then pyStrip (lastPiece sepIn query)
  else if containsSub sepAt query then pyStrip (lastPiece sepAt query)
  else if containsSub sepFor query then pyStrip (lastPiece sepFor query)
  else (pySplitWs query).getLastD []

/-! ## Helper lemmas -/

theorem pySplitFuel_ne_nil (sep : List Char) (fuel : Nat) (s : List Char) :
    pySplitFuel sep fuel s ≠ [] := by
  cases fuel with
  | zero => simp [pySplitFuel]
  | succ f =>
    unfold pySplitFuel
    cases splitFirst sep s with
    | none => simp
    | some pr => cases pr with | mk pre rest => simp

theorem getLastD_irrel {α : Type} (l : List α) (h : l ≠ []) (a b : α) :
    l.getLastD a = l.getLastD b := by
  cases l with
  | nil => exact absurd rfl h
  | cons x xs => rw [List.getLastD_cons, List.getLastD_cons]

/-- The last piece of Python's `split(sep)` is the tail of the non-overlapping
separator scan. -/
theorem pySplitFuel_getLastD (sep : List Char) :
    ∀ (fuel : Nat) (s : List Char),
      (pySplitFuel sep fuel s).getLastD [] = tailScanFuel sep fuel s := by
  intro fuel
  induction fuel with
  | zero => intro s; rfl
  | succ f ih =>
    intro s
    unfold pySplitFuel tailScanFuel
    cases h : splitFirst sep s with
    | none => rfl
    | some pr =>
      obtain ⟨pre, rest⟩ := pr
      rw [List.getLastD_cons, getLastD_irrel _ (pySplitFuel_ne_nil sep f rest) pre []]
      exact ih rest

theorem isPrefixOf_append_self : ∀ (l t : List Char), l.isPrefixOf (l ++ t) = true := by
  intro l t
  induction l with
  | nil => simp [List.isPrefixOf]
  | cons c cs ih => simp [List.isPrefixOf, ih]

theorem containsSub_nil_pat : ∀ (s : List Char), containsSub [] s = true := by
  intro s
  cases s <;> simp [containsSub, List.isPrefixOf]

/-- A pattern occurring literally inside a list is found by `containsSub`. -/
theorem containsSub_sandwich : ∀ (pat a b : List Char),
    containsSub pat (a ++ (pat ++ b)) = true := by
  intro pat a b
  induction a with
  | nil =>
    cases pat with
    | nil => simpa using containsSub_nil_pat b
    | cons p ps =>
      simp only [List.nil_append, List.cons_append]
      unfold containsSub
      have := isPrefixOf_append_self (p :: ps) b
      simp only [List.cons_append] at this
      simp [this]
  | cons c cs ih =>
    simp only [List.cons_append]
    unfold containsSub
    simp [ih]

theorem pyIndex_def {α : Type} (xs : List α) (i : ℤ) :
    pyIndex xs i =
      if (if i < 0 then (xs.length : ℤ) + i else i) < 0 then none
      else xs.get? (if i < 0 then (xs.length : ℤ) + i else i).toNat := rfl

/-- Python indexing fails exactly outside `[-len, len)`. -/
theorem pyIndex_out_of_range {α : Type} (xs : List α) (i : ℤ)
    (h : i < -(xs.length : ℤ) ∨ (xs.length : ℤ) ≤ i) : pyIndex xs i = none := by
  rw [pyIndex_def]
  rcases h with h | h
  · have hi : i < 0 := by omega
    simp only [if_pos hi]
    rw [if_pos (by omega : (xs.length : ℤ) + i < 0)]
  · have hi : ¬ i < 0 := by omega
    simp only [if_neg hi]
    exact List.get?_eq_none.mpr (by omega)

/-- Python indexing with a negative index in `[-len, -1]` reads from the end. -/
theorem pyIndex_neg (α : Type) (xs : List α) (i : ℤ)
    (h2 : -(xs.length : ℤ) ≤ i) (h3 : i ≤ -1) :
    pyIndex xs i = xs.get? ((xs.length : ℤ) + i).toNat := by
  rw [pyIndex_def]
  have hi : i < 0 := by omega
  simp only [if_pos hi]
  rw [if_neg (by omega : ¬ (xs.length : ℤ) + i < 0)]

theorem containsSub_append_right (pat t : List Char) (h : containsSub pat t = true)
    (a : List Char) : containsSub pat (a ++ t) = true := by
  induction a with
  | nil => simpa
  | cons c cs ih =>
    simp only [List.cons_append]
    unfold containsSub
    simp [ih]

theorem containsSub_self_append (pat b : List Char) :
    containsSub pat (pat ++ b) = true := by
  simpa using containsSub_sandwich pat [] b

/-- The response text produced for a successful fetch of value 45.0. -/
theorem pm_response_45 (A : LocationCandidate) :
    pm_response_text ⟨true, none, some (.num 45), none, none⟩ A =
      some ("🟡 **PM2.5 level in " ++ (A.name ++
        ("**\n\n📊 **Current Level:** 45.0 µg/m³\n📍 **Location Type:** " ++
          (levelDisplay A.level ++ "\n🏷️ **Category:** Satisfactory\n")))) := by
  have hcat : get_air_quality_category (some (.num 45)) = ("Satisfactory", "🟡") := by
    decide
  have hfmt : formatFixed1 (.num 45) = "45.0" := by decide
  simp [pm_response_text, hcat, hfmt, String.append_assoc]

/-! ## Concrete fixtures used by counterexamples and witnesses -/

def locA : LocationCandidate :=
  ⟨"C001", "district", "Araria", "📍 District: Araria | State: Bihar"⟩

def locB : LocationCandidate :=
  ⟨"C002", "sub_district", "Araria Block", "📌 Sub-district: Araria Block | District: Araria | State: Bihar"⟩

/-- A resolver that finds the single candidate `locA` without ambiguity. -/
def resolveA : String → ResolveResult := fun _ => ⟨[locA], false⟩

/-- A resolver that finds two candidates and flags them ambiguous. -/
def resolveAB : String → ResolveResult := fun _ => ⟨[locA, locB], true⟩

/-- A resolver that finds nothing. -/
def resolveEmpty : String → ResolveResult := fun _ => ⟨[], false⟩

/-- A deterministic fetcher reporting success with value 45.0. -/
def fetch45 : LocationCandidate → FetchResult :=
  fun _ => ⟨true, none, some (.num 45), none, none⟩

/-- A deterministic fetcher reporting failure without an error message. -/
def fetchFailNone : LocationCandidate → FetchResult :=
  fun _ => ⟨false, none, none, none, none⟩

/-- A deterministic fetcher reporting failure with an error message. -/
def fetchFailMsg : LocationCandidate → FetchResult :=
  fun _ => ⟨false, some "No PM2.5 data available for this location", none, none, none⟩

/-- A paused state with no candidates at all. -/
def pausedEmpty : PMQueryState :=
  { initialState "pm in araria" with waiting_for_user := true }

/-- A paused state with a single candidate. -/
def pausedA : PMQueryState :=
  { initialState "pm in araria" with locations := [locA], waiting_for_user := true }

/-- A paused state with two candidates awaiting disambiguation. -/
def pausedAB : PMQueryState :=
  { initialState "pm in araria" with
      locations := [locA, locB], needs_disambiguation := true, waiting_for_user := true }

/-- `pausedAB` after the in-place mutation of `resume(pausedAB, 0)`. -/
def pausedABsel : PMQueryState :=
  { pausedAB with selected_location := some locA, waiting_for_user := false }

/-- A state holding a selected location (fetch has not yet run). -/
def stateSelA : PMQueryState :=
  { initialState "pm in araria" with
      locations := [locA], selected_location := some locA }

/-- A state whose fetched data reports success but carries no `pm25_value`. -/
def stateNoValue : PMQueryState :=
  { initialState "pm in araria" with
      locations := [locA], selected_location := some locA,
      pm_data := some ⟨true, none, none, none, none⟩ }

/-- A state whose fetched data carries the value 45.0. -/
def stateVal45 : PMQueryState :=
  { initialState "pm in araria" with
      locations := [locA], selected_location := some locA,
      pm_data := some ⟨true, none, some (.num 45), none, none⟩ }

/-! ## C4 — term extraction -/

/-- C4, counterexample.  The claim says the term is everything after the last
occurrence of the winning separator.  On `"a in in b"` the two occurrences of
`" in "` overlap (they share the middle space), the text after the rightmost
occurrence is `"b"`, but the code's left-to-right non-overlapping
`split(" in ")[-1]` yields `"in b"`. -/
theorem c4_counterexample :
    String.mk (parse_query_term "a in in b".toList) = "in b" ∧
    String.mk (claim_term_last_occurrence "a in in b".toList) = "b" ∧
    parse_query_term "a in in b".toList ≠
      claim_term_last_occurrence "a in in b".toList := by
  refine ⟨by decide, by decide, by decide⟩

/-- C4, amended: for every query string the derived term is: lower-case the
text; check `" in "`, `" at "`, `" for "` in that fixed priority order (the
first of the three present anywhere wins); if one is present the term is the
final piece of the left-to-right non-overlapping split by that separator
(equal to "everything after its last occurrence" whenever occurrences do not
overlap), trimmed of surrounding whitespace with trailing punctuation
preserved (e.g. `"What is PM level in Araria?"` yields `"araria?"`); if none
is present, the term is the final whitespace-delimited token of the
lower-cased text, or the empty string when there is no token. -/
theorem c4_amended :
    (∀ q : String, parse_query_term q.toList = spec_term_amended q.toList) ∧
    String.mk (parse_query_term "What is PM level in Araria?".toList) = "araria?" ∧
    String.mk (parse_query_term "showmepmbangalore".toList) = "showmepmbangalore" ∧
    String.mk (parse_query_term "".toList) = "" := by
  refine ⟨?_, by decide, by decide, by decide⟩
  intro q
  unfold parse_query_term spec_term_amended pySplit lastPiece
  simp only [pySplitFuel_getLastD]

/-! ## C6 — category thresholds -/

/-- C6: the category mapping uses inclusive upper bounds in ascending order:
`v ≤ 30` is "Good" (hence every negative value is "Good"), `30 < v ≤ 60`
"Satisfactory", `60 < v ≤ 90` "Moderate", `90 < v ≤ 120` "Poor",
`120 < v ≤ 250` "Very Poor", `250 < v` "Severe"; each boundary value falls in
the lower band. -/
theorem c6_category_thresholds (v : ℚ) :
    (v ≤ 30 → get_air_quality_category (some (.num v)) = ("Good", "🟢")) ∧
    (30 < v → v ≤ 60 → get_air_quality_category (some (.num v)) = ("Satisfactory", "🟡")) ∧
    (60 < v → v ≤ 90 → get_air_quality_category (some (.num v)) = ("Moderate", "🟠")) ∧
    (90 < v → v ≤ 120 → get_air_quality_category (some (.num v)) = ("Poor", "🔴")) ∧
    (120 < v → v ≤ 250 → get_air_quality_category (some (.num v)) = ("Very Poor", "🟣")) ∧
    (250 < v → get_air_quality_category (some (.num v)) = ("Severe", "🟤")) := by
  refine ⟨?_, ?_, ?_, ?_, ?_, ?_⟩
  · intro h
    simp [get_air_quality_category, PyFloat.le, h]
  · intro h1 h2
    have n1 : ¬ v ≤ 30 := by linarith
    simp [get_air_quality_category, PyFloat.le, n1, h2]
  · intro h1 h2
    have n1 : ¬ v ≤ 30 := by linarith
    have n2 : ¬ v ≤ 60 := by linarith
    simp [get_air_quality_category, PyFloat.le, n1, n2, h2]
  · intro h1 h2
    have n1 : ¬ v ≤ 30 := by linarith
    have n2 : ¬ v ≤ 60 := by linarith
    have n3 : ¬ v ≤ 90 := by linarith
    simp [get_air_quality_category, PyFloat.le, n1, n2, n3, h2]
  · intro h1 h2
    have n1 : ¬ v ≤ 30 := by linarith
    have n2 : ¬ v ≤ 60 := by linarith
    have n3 : ¬ v ≤ 90 := by linarith
    have n4 : ¬ v ≤ 120 := by linarith
    simp [get_air_quality_category, PyFloat.le, n1, n2, n3, n4, h2]
  · intro h1
    have n1 : ¬ v ≤ 30 := by linarith
    have n2 : ¬ v ≤ 60 := by linarith
    have n3 : ¬ v ≤ 90 := by linarith
    have n4 : ¬ v ≤ 120 := by linarith
    have n5 : ¬ v ≤ 250 := by linarith
    simp [get_air_quality_category, PyFloat.le, n1, n2, n3, n4, n5]

/-- C6, witness: the boundary values 30, 60, 250 land in the lower band. -/
theorem c6_witness :
    ((30 : ℚ) ≤ 30 ∧ get_air_quality_category (some (.num 30)) = ("Good", "🟢")) ∧
    ((30 : ℚ) < 60 ∧ (60 : ℚ) ≤ 60 ∧
      get_air_quality_category (some (.num 60)) = ("Satisfactory", "🟡")) ∧
    ((250 : ℚ) < 251 ∧ get_air_quality_category (some (.num 251)) = ("Severe", "🟤")) :=
  ⟨⟨by norm_num, (c6_category_thresholds 30).1 (by norm_num)⟩,
   ⟨by norm_num, by norm_num,
     (c6_category_thresholds 60).2.1 (by norm_num) (by norm_num)⟩,
   ⟨by norm_num, (c6_category_thresholds 251).2.2.2.2.2 (by norm_num)⟩⟩

/-! ## C3 — ambiguous resolution pauses the workflow -/

/-- C3: whenever the resolver reports `needs_disambiguation = true` with more
than one candidate, `start(query)` returns with `waiting_for_user = true`, the
resolver's candidates in order, no selected location, empty `response`, no
`error` — and the metric fetcher is never invoked (the result does not depend
on `fetch`, which occurs nowhere in the right-hand side). -/
theorem c3_ambiguous_pauses (resolve : String → ResolveResult)
    (fetch : LocationCandidate → FetchResult) (query : String)
    (h1 : (resolve (String.mk (parse_query_term query.toList))).needs_disambiguation = true)
    (h2 : 1 < (resolve (String.mk (parse_query_term query.toList))).locations.length) :
    process_query resolve fetch query = some
      { user_query := query
        location_search_term := String.mk (parse_query_term query.toList)
        locations := (resolve (String.mk (parse_query_term query.toList))).locations
        needs_disambiguation := true
        selected_location := none
        pm_data := none
        response := ""
        error := none
        waiting_for_user := true } := by
  simp only [String.toList] at h1 h2
  simp [process_query, parse_query, search_location, handle_disambiguation,
    initialState, h1, h2]

/-- C3, witness: a two-candidate ambiguous resolution of `"pm in araria"`. -/
theorem c3_witness :
    (resolveAB (String.mk (parse_query_term "pm in araria".toList))).needs_disambiguation = true ∧
    1 < (resolveAB (String.mk (parse_query_term "pm in araria".toList))).locations.length ∧
    process_query resolveAB fetch45 "pm in araria" = some
      { user_query := "pm in araria"
        location_search_term := String.mk (parse_query_term "pm in araria".toList)
        locations := (resolveAB (String.mk (parse_query_term "pm in araria".toList))).locations
        needs_disambiguation := true
        selected_location := none
        pm_data := none
        response := ""
        error := none
        waiting_for_user := true } :=
  ⟨rfl, by decide,
    c3_ambiguous_pauses resolveAB fetch45 "pm in araria" rfl (by decide)⟩

/-! ## C2 — empty resolution -/

/-- C2: evaluation of the code at the failing input.  With a resolver that
returns no candidates, `handle_disambiguation` does set
`error = "No location found"`, but the graph's conditional edge only checks
`waiting_for_user`, so execution continues into `fetch_pm_data`, which
overwrites the error with `"No location selected"`; the final state of
`start` therefore carries `error = "No location selected"` and response
`"❌ No location selected"` (with `waiting_for_user = false`, and without
ever invoking the metric fetcher), not the claimed `"No location found"`. -/
theorem c2_error_overwritten :
    (handle_disambiguation (search_location resolveEmpty
        (parse_query (initialState "what is pm level in nowhere")))).error
      = some "No location found" ∧
    (process_query resolveEmpty fetch45 "what is pm level in nowhere").map
        PMQueryState.error = some (some "No location selected") ∧
    (process_query resolveEmpty fetch45 "what is pm level in nowhere").map
        PMQueryState.response = some "❌ No location selected" ∧
    (process_query resolveEmpty fetch45 "what is pm level in nowhere").map
        PMQueryState.waiting_for_user = some false := by
  refine ⟨by decide, by decide, by decide, by decide⟩

/-! ## C1 — resume preconditions -/

/-- C1, counterexample: `resume` performs no precondition checks at all.  With
an empty candidate list (index 0) and with index 1 against a single candidate
it raises `IndexError` (modelled by `none`); it never returns a state carrying
the error message "No locations to select from" or "Selected index out of
range" — those strings occur nowhere in the repository. -/
theorem c1_counterexample :
    continue_with_selection fetch45 pausedEmpty 0 = none ∧
    continue_with_selection fetch45 pausedA 1 = none := by
  refine ⟨by decide, by decide⟩

/-- C1, amended: `resume(state, selectedIndex)` itself validates nothing: when
`state.locations` is empty, or `selectedIndex` lies outside Python's valid
index range `[-n, n)`, it raises `IndexError` (modelled by `none`) — no error
message is stored, no state is returned and no metric fetch is performed (the
result is `none` for every fetcher `fetch`).  The validation the claim
describes lives in the HTTP endpoint `post_query_selection`, which rejects an
empty candidate list with HTTP 400 "No selectable locations found in state"
and an index outside `[0, n)` with HTTP 400 "'selected_index' out of range
[0, n-1]", before `resume` is ever invoked. -/
theorem c1_amended (fetch : LocationCandidate → FetchResult)
    (s : PMQueryState) (idx : ℤ)
    (h : s.locations = [] ∨ idx < -(s.locations.length : ℤ) ∨
      (s.locations.length : ℤ) ≤ idx) :
    continue_with_selection fetch s idx = none ∧
    post_query_selection s.locations idx =
      (if s.locations.isEmpty then
        SelectionOutcome.badRequest "No selectable locations found in state"
      else
        SelectionOutcome.badRequest ("'selected_index' out of range [0, " ++
          toString (s.locations.length - 1) ++ "]")) := by
  have hnone : pyIndex s.locations idx = none := by
    rcases h with h | h | h
    · refine pyIndex_out_of_range _ _ ?_
      rw [h]
      simp only [List.length_nil, Nat.cast_zero, neg_zero]
      omega
    · exact pyIndex_out_of_range _ _ (Or.inl h)
    · exact pyIndex_out_of_range _ _ (Or.inr h)
  constructor
  · simp [continue_with_selection, resumeMutate, hnone]
  · by_cases he : s.locations.isEmpty
    · simp [post_query_selection, he]
    · have hidx : idx < 0 ∨ (s.locations.length : ℤ) ≤ idx := by
        rcases h with h | h | h
        · exact absurd (by simp [h]) he
        · left; omega
        · right; exact h
      simp only [post_query_selection, he, if_neg, Bool.false_eq_true,
        if_false, if_pos hidx]

/-- C1, amended, witness: index 2 against the single-candidate paused state. -/
theorem c1_amended_witness :
    (pausedA.locations = [] ∨ (2 : ℤ) < -(pausedA.locations.length : ℤ) ∨
      (pausedA.locations.length : ℤ) ≤ 2) ∧
    (continue_with_selection fetch45 pausedA 2 = none ∧
      post_query_selection pausedA.locations 2 =
        (if pausedA.locations.isEmpty then
          SelectionOutcome.badRequest "No selectable locations found in state"
        else
          SelectionOutcome.badRequest ("'selected_index' out of range [0, " ++
            toString (pausedA.locations.length - 1) ++ "]"))) :=
  ⟨Or.inr (Or.inr (by decide)),
    c1_amended fetch45 pausedA 2 (Or.inr (Or.inr (by decide)))⟩

/-! ## C9 — resuming twice is idempotent -/

/-- C9: `continue_with_selection` mutates the caller's state in place
(`resumeMutate`), so a second `resume` with the same index receives the
mutated state; with a deterministic fetcher (any pure function `fetch`), the
second call returns exactly the same result — in particular the same
`response` — as the first: the state machine keeps no hidden counter or
shared mutable data. -/
theorem c9_resume_deterministic (fetch : LocationCandidate → FetchResult)
    (s : PMQueryState) (idx : ℤ) (s0 : PMQueryState)
    (h : resumeMutate s idx = some s0) :
    continue_with_selection fetch s0 idx = continue_with_selection fetch s idx := by
  unfold resumeMutate at h
  cases hp : pyIndex s.locations idx with
  | none => rw [hp] at h; simp at h
  | some loc =>
    rw [hp] at h
    simp only [Option.map_some'] at h
    have h' := Option.some.inj h
    subst h'
    unfold continue_with_selection resumeMutate
    simp [hp]

/-- C9, witness: resuming the two-candidate paused state at index 0 twice. -/
theorem c9_witness :
    resumeMutate pausedAB 0 = some pausedABsel ∧
    continue_with_selection fetch45 pausedABsel 0 =
      continue_with_selection fetch45 pausedAB 0 :=
  ⟨by decide, c9_resume_deterministic fetch45 pausedAB 0 pausedABsel (by decide)⟩

/-! ## C10 — negative indices are accepted -/

/-- C10: for a state with `n ≥ 1` candidates and any `selectedIndex` in
`[-n, -1]`, `resume` reports no out-of-range error: the in-place mutation
succeeds and selects `locations[n + selectedIndex]` (Python negative
indexing), the workflow proceeds into fetch and format, and whenever the
fetcher succeeds with a present value the final state carries the normally
formatted response (no error, the fetch result stored). -/
theorem c10_negative_index (fetch : LocationCandidate → FetchResult)
    (s : PMQueryState) (idx : ℤ)
    (h1 : 1 ≤ s.locations.length)
    (h2 : -(s.locations.length : ℤ) ≤ idx) (h3 : idx ≤ -1) :
    ∃ loc, s.locations.get? ((s.locations.length : ℤ) + idx).toNat = some loc ∧
      resumeMutate s idx = some
        { s with selected_location := some loc, waiting_for_user := false } ∧
      continue_with_selection fetch s idx = format_response (fetch_pm_data fetch
        { s with selected_location := some loc, waiting_for_user := false }) ∧
      ∀ v : PyFloat, (fetch loc).success = true → (fetch loc).pm25_value = some v →
        ∃ t, continue_with_selection fetch s idx = some t ∧
          t.error = none ∧ t.pm_data = some (fetch loc) ∧
          pm_response_text (fetch loc) loc = some t.response := by
  have hj : ((s.locations.length : ℤ) + idx).toNat < s.locations.length := by omega
  have hloc : s.locations.get? ((s.locations.length : ℤ) + idx).toNat =
      some (s.locations.get ⟨((s.locations.length : ℤ) + idx).toNat, hj⟩) :=
    List.get?_eq_get hj
  set loc := s.locations.get ⟨((s.locations.length : ℤ) + idx).toNat, hj⟩ with hdef
  have hpy : pyIndex s.locations idx = some loc := by
    rw [pyIndex_neg _ _ _ h2 h3]; exact hloc
  refine ⟨loc, hloc, ?_, ?_, ?_⟩
  · simp [resumeMutate, hpy]
  · simp [continue_with_selection, resumeMutate, hpy]
  · intro v hv1 hv2
    have hfd : fetch_pm_data fetch
        { s with selected_location := some loc, waiting_for_user := false } =
        { s with
            selected_location := some loc
            waiting_for_user := false
            pm_data := some (fetch loc)
            error := none } := by
      simp [fetch_pm_data, hv1]
    obtain ⟨txt, htxt⟩ : ∃ txt, pm_response_text (fetch loc) loc = some txt := by
      simp [pm_response_text, hv2]
    refine ⟨{ s with
        selected_location := some loc
        waiting_for_user := false
        pm_data := some (fetch loc)
        error := none
        response := txt },
      ?_, rfl, rfl, ?_⟩
    · simp [continue_with_selection, resumeMutate, hpy, hfd, format_response,
        truthyStr, htxt]
    · rw [htxt]

/-- C10, witness: index -1 against the two-candidate paused state selects the
second (last) candidate. -/
theorem c10_witness :
    1 ≤ pausedAB.locations.length ∧
    -(pausedAB.locations.length : ℤ) ≤ -1 ∧ (-1 : ℤ) ≤ -1 ∧
    (∃ loc, pausedAB.locations.get? ((pausedAB.locations.length : ℤ) + -1).toNat
        = some loc ∧
      resumeMutate pausedAB (-1) = some
        { pausedAB with selected_location := some loc, waiting_for_user := false } ∧
      continue_with_selection fetch45 pausedAB (-1) =
        format_response (fetch_pm_data fetch45
          { pausedAB with selected_location := some loc, waiting_for_user := false }) ∧
      ∀ v : PyFloat, (fetch45 loc).success = true → (fetch45 loc).pm25_value = some v →
        ∃ t, continue_with_selection fetch45 pausedAB (-1) = some t ∧
          t.error = none ∧ t.pm_data = some (fetch45 loc) ∧
          pm_response_text (fetch45 loc) loc = some t.response) :=
  ⟨by decide, by decide, by decide,
    c10_negative_index fetch45 pausedAB (-1) (by decide) (by decide) (by decide)⟩

/-! ## C7 — fetch failure handling -/

/-- C7, counterexample: when the fetcher reports failure without supplying an
error message, the shared tail leaves the state's `error` field unset
(`None`) — it does not store a generic fallback message there; the fallback
text "Could not fetch PM2.5 data" is stored in `response` instead (and no
metric result is stored). -/
theorem c7_counterexample :
    (format_response (fetch_pm_data fetchFailNone stateSelA)).map PMQueryState.error
      = some none ∧
    (format_response (fetch_pm_data fetchFailNone stateSelA)).map PMQueryState.response
      = some "Could not fetch PM2.5 data" ∧
    (format_response (fetch_pm_data fetchFailNone stateSelA)).map PMQueryState.pm_data
      = some none := by
  refine ⟨by decide, by decide, by decide⟩

/-- C7, amended: on a fetch failure the shared tail stores no metric result
(`pm_data = none`) and copies the fetcher's error field verbatim into
`state.error` — including the case where that field is absent, in which
`error` stays unset; the generic fallback message appears in the formatted
`response` (which is the error-marker text when a non-empty message was
supplied, and "Could not fetch PM2.5 data" otherwise). -/
theorem c7_fetch_failure (fetch : LocationCandidate → FetchResult)
    (s : PMQueryState) (loc : LocationCandidate)
    (h1 : s.selected_location = some loc) (h2 : (fetch loc).success = false) :
    ∃ t, format_response (fetch_pm_data fetch s) = some t ∧
      t.pm_data = none ∧
      t.error = (fetch loc).error ∧
      t.response = (if truthyStr (fetch loc).error then
          "❌ " ++ ((fetch loc).error.getD "")
        else "Could not fetch PM2.5 data") := by
  have hfd : fetch_pm_data fetch s =
      { s with pm_data := none, error := (fetch loc).error } := by
    simp [fetch_pm_data, h1, h2]
  rw [hfd]
  refine ⟨{ s with
      pm_data := none
      error := (fetch loc).error
      response := if truthyStr (fetch loc).error then
          "❌ " ++ ((fetch loc).error.getD "")
        else "Could not fetch PM2.5 data" }, ?_, rfl, rfl, rfl⟩
  by_cases ht : truthyStr (fetch loc).error
  · simp [format_response, ht]
  · simp [format_response, ht]

/-- C7, witness: a failing fetch that does supply an error message. -/
theorem c7_witness :
    stateSelA.selected_location = some locA ∧
    (fetchFailMsg locA).success = false ∧
    (∃ t, format_response (fetch_pm_data fetchFailMsg stateSelA) = some t ∧
      t.pm_data = none ∧
      t.error = (fetchFailMsg locA).error ∧
      t.response = (if truthyStr (fetchFailMsg locA).error then
          "❌ " ++ ((fetchFailMsg locA).error.getD "")
        else "Could not fetch PM2.5 data")) :=
  ⟨rfl, rfl, c7_fetch_failure fetchFailMsg stateSelA locA rfl rfl⟩

/-! ## C8 — formatter totality -/

/-- C8, counterexample: on a state whose stored fetch data has no
`pm25_value`, `format_response` raises a `TypeError` (formatting `None` with
`:.1f`), modelled by `none`; no text containing "N/A" is ever produced. -/
theorem c8_counterexample : format_response stateNoValue = none := by decide

/-- C8, amended: the category mapping sends an absent value to "Unknown", and
the formatter is total for every present metric value (any rational,
including negative ones, and NaN); but formatting a state whose fetch data
lacks a value raises (returns no state) instead of printing "N/A". -/
theorem c8_formatter_totality :
    get_air_quality_category none = ("Unknown", "❓") ∧
    (∀ (s : PMQueryState) (d : FetchResult) (loc : LocationCandidate) (v : PyFloat),
      s.pm_data = some d → s.selected_location = some loc → d.pm25_value = some v →
      (format_response s).isSome = true) ∧
    (∀ (s : PMQueryState) (d : FetchResult) (loc : LocationCandidate),
      s.pm_data = some d → s.selected_location = some loc → d.pm25_value = none →
      truthyStr s.error = false → format_response s = none) := by
  refine ⟨rfl, ?_, ?_⟩
  · intro s d loc v h1 h2 h3
    by_cases ht : truthyStr s.error
    · simp [format_response, ht]
    · simp [format_response, ht, h1, h2, pm_response_text, h3]
  · intro s d loc h1 h2 h3 ht
    simp [format_response, ht, h1, h2, pm_response_text, h3]

/-- C8, witness: a present value of 45.0 formats, an absent value raises. -/
theorem c8_witness :
    (stateVal45.pm_data = some ⟨true, none, some (.num 45), none, none⟩ ∧
      stateVal45.selected_location = some locA ∧
      (format_response stateVal45).isSome = true) ∧
    (stateNoValue.pm_data = some ⟨true, none, none, none, none⟩ ∧
      stateNoValue.selected_location = some locA ∧
      truthyStr stateNoValue.error = false ∧
      format_response stateNoValue = none) :=
  ⟨⟨rfl, rfl, c8_formatter_totality.2.1 stateVal45 _ locA (.num 45) rfl rfl rfl⟩,
   ⟨rfl, rfl, rfl, c8_formatter_totality.2.2 stateNoValue _ locA rfl rfl rfl rfl⟩⟩

/-! ## C5 — successful single-location run -/

/-- C5, counterexample: in a full run with one resolved location and a
successful fetch of 45.0, the final response prints the value with one
decimal digit (`{pm_value:.1f}`) and the location's `name` field — the
literal substring "45.00" does not occur anywhere in it. -/
theorem c5_counterexample :
    (process_query resolveA fetch45 "what is pm level in araria?").map
        PMQueryState.response = some
      ("🟡 **PM2.5 level in Araria**\n\n📊 **Current Level:** 45.0 µg/m³\n📍 **Location Type:** District\n🏷️ **Category:** Satisfactory\n") ∧
    containsSub "45.00".toList
      ("🟡 **PM2.5 level in Araria**\n\n📊 **Current Level:** 45.0 µg/m³\n📍 **Location Type:** District\n🏷️ **Category:** Satisfactory\n").toList
      = false := by
  refine ⟨by decide, by decide⟩

/-- C5, amended: whenever a single location `A` is resolved without
disambiguation and the fetcher succeeds with value 45.0 (and no timestamp or
station count), the final response is the Satisfactory marker followed by the
metric text: it begins with "🟡", contains the value formatted to exactly one
decimal place — the literal substring "45.0" — and contains the location's
`name` field (the code uses `name`, not the derived display name). -/
theorem c5_single_success (resolve : String → ResolveResult)
    (fetch : LocationCandidate → FetchResult) (query : String)
    (A : LocationCandidate)
    (h1 : (resolve (String.mk (parse_query_term query.toList))).locations = [A])
    (h2 : (resolve (String.mk (parse_query_term query.toList))).needs_disambiguation = false)
    (h3 : fetch A = ⟨true, none, some (.num 45), none, none⟩) :
    ∃ t, process_query resolve fetch query = some t ∧
      t.response = "🟡 **PM2.5 level in " ++ (A.name ++
        ("**\n\n📊 **Current Level:** 45.0 µg/m³\n📍 **Location Type:** " ++
          (levelDisplay A.level ++ "\n🏷️ **Category:** Satisfactory\n"))) ∧
      t.response.data.take 1 = ['🟡'] ∧
      containsSub "45.0".toList t.response.data = true ∧
      containsSub A.name.toList t.response.data = true := by
  simp only [String.toList] at h1 h2
  have hsplit1 : ("🟡 **PM2.5 level in " : String).data
      = '🟡' :: (" **PM2.5 level in " : String).data := by decide
  have hsplit2 : ("**\n\n📊 **Current Level:** 45.0 µg/m³\n📍 **Location Type:** " : String)
      = "**\n\n📊 **Current Level:** " ++ ("45.0" ++ " µg/m³\n📍 **Location Type:** ") := by
    decide
  refine ⟨{ user_query := query
            location_search_term := String.mk (parse_query_term query.toList)
            locations := [A]
            needs_disambiguation := false
            selected_location := some A
            pm_data := some ⟨true, none, some (.num 45), none, none⟩
            response := "🟡 **PM2.5 level in " ++ (A.name ++
              ("**\n\n📊 **Current Level:** 45.0 µg/m³\n📍 **Location Type:** " ++
                (levelDisplay A.level ++ "\n🏷️ **Category:** Satisfactory\n")))
            error := none
            waiting_for_user := false }, ?_, rfl, ?_, ?_, ?_⟩
  · simp [process_query, parse_query, search_location, handle_disambiguation,
      initialState, fetch_pm_data, format_response, truthyStr, h1, h2, h3,
      pm_response_45]
  · simp [String.data_append, hsplit1]
  · show containsSub ("45.0" : String).toList
        ("🟡 **PM2.5 level in " ++ (A.name ++
          ("**\n\n📊 **Current Level:** 45.0 µg/m³\n📍 **Location Type:** " ++
            (levelDisplay A.level ++ "\n🏷️ **Category:** Satisfactory\n")))).data = true
    rw [hsplit2]
    simp only [String.data_append, String.toList, List.append_assoc]
    exact containsSub_append_right _ _ (containsSub_append_right _ _
      (containsSub_append_right _ _ (containsSub_self_append _ _) _) _) _
  · simp only [String.data_append, String.toList, List.append_assoc]
    exact containsSub_append_right _ _ (containsSub_self_append _ _) _

/-- C5, witness: the concrete single-location run behind the amended claim. -/
theorem c5_witness :
    (resolveA (String.mk (parse_query_term "what is pm level in araria?".toList))).locations
      = [locA] ∧
    (resolveA (String.mk (parse_query_term "what is pm level in araria?".toList))).needs_disambiguation
      = false ∧
    (fetch45 locA = ⟨true, none, some (.num 45), none, none⟩) ∧
    (∃ t, process_query resolveA fetch45 "what is pm level in araria?" = some t ∧
      t.response = "🟡 **PM2.5 level in " ++ (locA.name ++
        ("**\n\n📊 **Current Level:** 45.0 µg/m³\n📍 **Location Type:** " ++
          (levelDisplay locA.level ++ "\n🏷️ **Category:** Satisfactory\n"))) ∧
      t.response.data.take 1 = ['🟡'] ∧
      containsSub "45.0".toList t.response.data = true ∧
      containsSub locA.name.toList t.response.data = true) :=
  ⟨rfl, rfl, rfl,
    c5_single_success resolveA fetch45 "what is pm level in araria?" locA rfl rfl rfl⟩

end AirQuality
